import Mathlib

/-!
Verification of the vconv batch video-transcoding orchestrator.

The embedding follows the sequential, richly-logged script variant
(the canonical one per the specification): module `convert.js` /
`unnamed/part_000`.  External effects (ffprobe results, ffmpeg
conversion outcomes, wall-clock timestamps, the directory listing) are
supplied through an explicit `Env` record; everything else is a direct
translation of the JavaScript.  JavaScript numbers reaching the helpers
in this program are nonnegative integers (byte sizes, bitrates,
millisecond durations), so they are modelled as `Nat`, with the
floating-point special values needed by the size-change computation
modelled explicitly by `JsNumber`.
-/

namespace VConv

/-- A JavaScript value as it can appear in the bitrate fields produced by
`getFileStats` and consumed by `formatBitrate`: a nonnegative number
(ffprobe `bit_rate`), a string, or `undefined`. -/
inductive JsVal where
  | num (n : Nat)
  | str (s : String)
  | undef
deriving DecidableEq

/-- One entry of `metadata.streams` as returned by ffprobe: stream type,
codec name, and the optionally-absent `bit_rate` field. -/
structure ProbeStream where
  codec_type : String
  codec_name : String
  bit_rate : Option Nat
deriving DecidableEq

/-- The ffprobe metadata consumed by `getFileStats`: `format.size`,
`format.duration` and the stream list. -/
structure Metadata where
  size : Nat
  duration : ℚ
  streams : List ProbeStream
deriving DecidableEq

/-- The record resolved by `getFileStats`. -/
structure FileStats where
  size : Nat
  duration : ℚ
  videoCodec : String
  videoBitrate : JsVal
  audioCodec : String
  audioBitrate : JsVal
deriving DecidableEq

/-- The JavaScript expression `stream.bit_rate || 'N/A'`: an absent field
is `undefined` (falsy) and a numeric `0` is also falsy, so both yield the
string `'N/A'`. -/
def jsOrNA : Option Nat → JsVal
  | none => .str "N/A"
  | some 0 => .str "N/A"
  | some n => .num n

/-- Source `getFileStats` (convert.js lines 72-93): wraps an ffprobe call;
on error rejects with a message carrying the path, otherwise resolves the
stats record from `metadata.format` and the first video/audio streams.
The ffprobe call itself is external, so its outcome is passed in as
`probeResult`. -/
def getFileStats (filePath : String) (probeResult : Except String Metadata) :
    Except String FileStats :=
  match probeResult with
  | .error emsg => .error ("ffprobe error for " ++ filePath ++ ": " ++ emsg)
  | .ok metadata =>
    let videoStream := metadata.streams.find? (fun s => s.codec_type == "video")
    let audioStream := metadata.streams.find? (fun s => s.codec_type == "audio")
    .ok { size := metadata.size
          duration := metadata.duration
          videoCodec := (match videoStream with
            | some s => s.codec_name
            | none => "N/A")
          videoBitrate := (match videoStream with
            | some s => jsOrNA s.bit_rate
            | none => .str "N/A")
          audioCodec := (match audioStream with
            | some s => s.codec_name
            | none => "N/A")
          audioBitrate := (match audioStream with
            | some s => jsOrNA s.bit_rate
            | none => .str "N/A") }

/-- Renders a number of hundredths as a fixed two-decimal string, the
result of JavaScript `x.toFixed(2)` for a nonnegative `x` with
`centis = round(x * 100)`. -/
def renderFixed2Nat (centis : Nat) : String :=
  toString (centis / 100) ++ "." ++
    (if centis % 100 < 10 then "0" else "") ++ toString (centis % 100)

/-- Renders a number of hundredths the way JavaScript prints the number
`parseFloat(x.toFixed(2))`: the two rounded decimals with trailing zeros
(and a trailing decimal point) stripped. -/
def renderCentiTrimmed (centis : Nat) : String :=
  if centis % 100 = 0 then toString (centis / 100)
  else if centis % 10 = 0 then
    toString (centis / 100) ++ "." ++ toString (centis % 100 / 10)
  else
    toString (centis / 100) ++ "." ++
      (if centis % 100 < 10 then "0" else "") ++ toString (centis % 100)

/-- The unit table `sizes` of `formatBytes`. -/
def sizes : List String := ["Bytes", "KB", "MB", "GB", "TB"]

/-- Fuel-driven helper for `log1024`; the fuel bounds the recursion depth
so the definition is structural. -/
def log1024Aux : Nat → Nat → Nat
  | 0, _ => 0
  | fuel + 1, n => if n < 1024 then 0 else 1 + log1024Aux fuel (n / 1024)

/-- The exponent `Math.floor(Math.log(bytes) / Math.log(1024))` of
`formatBytes` for a positive integer argument: the base-1024 integer
logarithm. -/
def log1024 (n : Nat) : Nat := log1024Aux n n

/-- Source `formatBytes` (convert.js lines 95-102).  `i` is
`Math.floor(Math.log(bytes) / Math.log(1024))`, which for a positive
integer is the base-1024 integer logarithm; the displayed value is
`parseFloat((bytes / 1024^i).toFixed(2))`, computed here exactly:
`(200 * bytes + 1024^i) / (2 * 1024^i)` is `round(bytes / 1024^i * 100)`
with halves rounded up. -/
def formatBytes (bytes : Nat) : String :=
  if bytes = 0 then "0 Bytes"
  else
    let i := log1024 bytes
    let p := 1024 ^ i
    let centis := (200 * bytes + p) / (2 * p)
    renderCentiTrimmed centis ++ " " ++ sizes.getD i "undefined"

/-- JavaScript truthiness of the values `formatBitrate` can receive:
`0`, the empty string and `undefined` are falsy. -/
def jsTruthy : JsVal → Bool
  | .num n => n ≠ 0
  | .str s => s ≠ ""
  | .undef => false

/-- JavaScript `isNaN(v)` for the values reaching `formatBitrate`:
numbers are never NaN here, a string coerces to NaN unless it is a
numeric literal (modelled as a nonempty digit string; `Number("")` is
`0`, not NaN), and `undefined` coerces to NaN. -/
def jsIsNaN : JsVal → Bool
  | .num _ => false
  | .str s =>
    match s.toList with
    | [] => false
    | cs => ! cs.all Char.isDigit
  | .undef => true

/-- JavaScript `parseInt` for the (nonnegative) values that reach the
second branch of `formatBitrate`: an integral number parses to itself, a
digit string to its value. -/
def jsParseIntNat : JsVal → Nat
  | .num n => n
  | .str s => (s.toList.takeWhile Char.isDigit).foldl
      (fun a c => a * 10 + (c.toNat - 48)) 0
  | .undef => 0

/-- Source `formatBitrate` (convert.js lines 104-108):
`if (!bitrate || bitrate === 'N/A' || isNaN(bitrate)) return 'N/A';`
then `(parseInt(bitrate) / 1000).toFixed(0) + ' kb/s'`; the division
rounded to zero decimals (halves up) is `(n + 500) / 1000` on `Nat`. -/
def formatBitrate (bitrate : JsVal) : String :=
  if !(jsTruthy bitrate) || bitrate = .str "N/A" || jsIsNaN bitrate then "N/A"
  else toString ((jsParseIntNat bitrate + 500) / 1000) ++ " kb/s"

/-- A JavaScript number as produced by the size-change expression: a
finite value, one of the two infinities, or NaN. -/
inductive JsNumber where
  | finite (q : ℚ)
  | posInf
  | negInf
  | nan
deriving DecidableEq

/-- Source expression
`((targetStats.size - sourceStats.size) / sourceStats.size) * 100`
(convert.js line 223) under JavaScript float semantics: with a source
size of `0` the division is by zero, giving `NaN` when the numerator is
also `0` and `+Infinity` otherwise (file sizes are nonnegative). -/
def sizeChange (targetSize sourceSize : Nat) : JsNumber :=
  if sourceSize = 0 then
    if targetSize = 0 then .nan else .posInf
  else .finite (((targetSize : ℚ) - (sourceSize : ℚ)) / (sourceSize : ℚ) * 100)

/-- JavaScript `x.toFixed(2)` on a finite value, exact on rationals:
two decimals, halves rounded away from zero. -/
def renderFixed2 (q : ℚ) : String :=
  if q < 0 then "-" ++ renderFixed2Nat (Int.toNat ⌊-q * 100 + 1 / 2⌋)
  else renderFixed2Nat (Int.toNat ⌊q * 100 + 1 / 2⌋)

/-- JavaScript `x.toFixed(2)` on a possibly non-finite number: the
special values stringify as `NaN`, `Infinity` and `-Infinity`. -/
def jsToFixed2 : JsNumber → String
  | .finite q => renderFixed2 q
  | .posInf => "Infinity"
  | .negInf => "-Infinity"
  | .nan => "NaN"

/-- Position of the last `'.'` in a character list, if any. -/
def lastDotPos : List Char → Option Nat
  | [] => none
  | c :: cs =>
    match lastDotPos cs with
    | some k => some (k + 1)
    | none => if c = '.' then some 0 else none

/-- Node `path.extname` on a plain file name: the suffix from the last
dot, unless there is no dot or the only dot starts the name. -/
def extname (f : String) : String :=
  match lastDotPos f.toList with
  | none => ""
  | some 0 => ""
  | some k => String.mk (f.toList.drop k)

/-- Node `path.parse(f).name` on a plain file name: everything before the
last dot, the whole name when there is no dot or the name starts with its
only dot. -/
def stem (f : String) : String :=
  match lastDotPos f.toList with
  | none => f
  | some 0 => f
  | some k => String.mk (f.toList.take k)

/-- JavaScript `String.prototype.toLowerCase` on the ASCII extensions
compared here. -/
def jsToLowerCase (s : String) : String := String.mk (s.toList.map Char.toLower)

/-- Node `path.join` for the simple relative components used here. -/
def pathJoin (a b : String) : String := a ++ "/" ++ b

/-- The module directory `__dirname`, an opaque-to-the-logic base path. -/
def dirname : String := "."

/-- Source `inputDir = path.join(__dirname, 'input')`. -/
def inputDir : String := pathJoin dirname "input"

/-- Source `outputDir = path.join(__dirname, 'output')`. -/
def outputDir : String := pathJoin dirname "output"

/-- A preset: the ordered ffmpeg CLI tokens and the output extension. -/
structure Preset where
  cli : List String
  outputExtension : String
deriving DecidableEq

/-- Preset `conv0_5` of the PRESETS table. -/
def conv0_5 : Preset :=
  { cli := ["-vf", "scale=iw*0.5:ih*0.5", "-c:v", "libx264", "-crf", "28",
            "-c:a", "aac", "-b:a", "128k"]
    outputExtension := ".mp4" }

/-- Preset `conv0_25s` of the PRESETS table. -/
def conv0_25s : Preset :=
  { cli := ["-vf", "scale=iw*0.25:ih*0.25", "-c:v", "libxvid", "-q:v", "5",
            "-c:a", "libmp3lame", "-b:a", "128k"]
    outputExtension := ".avi" }

/-- Preset `conv256s` of the PRESETS table. -/
def conv256s : Preset :=
  { cli := ["-vf", "scale=-2:256", "-af", "volume=2.0", "-c:v", "libxvid",
            "-q:v", "5", "-c:a", "libmp3lame", "-b:a", "192k"]
    outputExtension := ".avi" }

/-- Preset `web_h264` of the PRESETS table. -/
def web_h264 : Preset :=
  { cli := ["-c:v", "libx264", "-crf", "23", "-preset", "medium",
            "-c:a", "aac", "-b:a", "160k", "-movflags", "+faststart"]
    outputExtension := ".mp4" }

/-- Preset `extract_audio` of the PRESETS table. -/
def extract_audio : Preset :=
  { cli := ["-vn", "-c:a", "libmp3lame", "-q:a", "2"]
    outputExtension := ".mp3" }

/-- The PRESETS registry, in source order. -/
def PRESETS : List (String × Preset) :=
  [("conv0_5", conv0_5), ("conv0_25s", conv0_25s), ("conv256s", conv256s),
   ("web_h264", web_h264), ("extract_audio", extract_audio)]

/-- Source `PRESETS[presetName]`: lookup by name in the registry. -/
def lookupPreset (name : String) : Option Preset := List.lookup name PRESETS

/-- Source `VIDEO_EXTENSIONS`. -/
def VIDEO_EXTENSIONS : List String :=
  [".mp4", ".mkv", ".avi", ".mov", ".flv", ".wmv"]

/-- Source candidate filter:
`files.filter(f => VIDEO_EXTENSIONS.includes(path.extname(f).toLowerCase()))`. -/
def videoFilesOf (files : List String) : List String :=
  files.filter (fun file => VIDEO_EXTENSIONS.contains (jsToLowerCase (extname file)))

/-- Source output-name construction
`` `${fileData.name}${preset.outputExtension}` `` (convert.js line 150). -/
def outputNameOf (file : String) (preset : Preset) : String :=
  stem file ++ preset.outputExtension

/-- Log line `🚀 Starting conversion session with preset: ...`. -/
def startMsg (presetName : String) : String :=
  "🚀 Starting conversion session with preset: " ++ presetName

/-- Log line `❌ Error: Preset "..." not found.`. -/
def presetNotFoundMsg (presetName : String) : String :=
  "❌ Error: Preset \"" ++ presetName ++ "\" not found."

/-- Log line `Available presets: ...`, listing every registry key. -/
def availablePresetsMsg : String :=
  "Available presets: " ++ String.intercalate ", " (PRESETS.map Prod.fst)

/-- Log line `❌ Critical error reading/creating directories: ...`. -/
def dirErrorMsg (emsg : String) : String :=
  "❌ Critical error reading/creating directories: " ++ emsg

/-- Log line `🟡 No video files found in /input folder.`. -/
def noFilesMsg : String := "🟡 No video files found in /input folder."

/-- Log line `Found N video files. Starting sequential processing...`. -/
def foundMsg (n : Nat) : String :=
  "Found " ++ toString n ++ " video files. Starting sequential processing..."

/-- Per-file header `--- [i/n] Starting processing: file ---` (preceded by
the newline the source embeds in the message). -/
def headerMsg (i n : Nat) (file : String) : String :=
  "\n--- [" ++ toString (i + 1) ++ "/" ++ toString n ++
    "] Starting processing: " ++ file ++ " ---"

/-- Log line `❌ Error getting stats (ffprobe) for file: msg`. -/
def probeErrMsg (file emsg : String) : String :=
  "❌ Error getting stats (ffprobe) for " ++ file ++ ": " ++ emsg

/-- Log line `--- Skipping file: file ---`. -/
def skipMsg (file : String) : String := "--- Skipping file: " ++ file ++ " ---"

/-- Log line `    File Size: ...`. -/
def fileSizeLine (size : Nat) : String := "    File Size: " ++ formatBytes size

/-- Log line `    Video: codec @ bitrate`. -/
def videoLine (st : FileStats) : String :=
  "    Video: " ++ st.videoCodec ++ " @ " ++ formatBitrate st.videoBitrate

/-- Log line `    Audio: codec @ bitrate`. -/
def audioLine (st : FileStats) : String :=
  "    Audio: " ++ st.audioCodec ++ " @ " ++ formatBitrate st.audioBitrate

/-- Log line `  Duration: s.ss seconds`; the source prints
`(durationMs / 1000).toFixed(2)`, i.e. the milliseconds rounded to
hundredths of a second. -/
def durationLine (durationMs : Nat) : String :=
  "  Duration: " ++ renderFixed2Nat ((durationMs + 5) / 10) ++ " seconds"

/-- Log line `  ❌ [file]: FAILED. Error: msg`. -/
def convFailedMsg (file emsg : String) : String :=
  "  ❌ [" ++ file ++ "]: FAILED. Error: " ++ emsg

/-- Log line
`    Size Change: p% (from sourceBytes to targetBytes)`. -/
def sizeChangeLine (targetSize sourceSize : Nat) : String :=
  "    Size Change: " ++ jsToFixed2 (sizeChange targetSize sourceSize) ++
    "% (from " ++ formatBytes sourceSize ++ " to " ++ formatBytes targetSize ++ ")"

/-- Log line `  ✅ [file]: SUCCESS -> outputName`. -/
def successMsg (file outputName : String) : String :=
  "  ✅ [" ++ file ++ "]: SUCCESS -> " ++ outputName

/-- Log line `  ⚠️ [file]: SUCCESS, but failed to get target stats: msg`. -/
def warnMsg (file emsg : String) : String :=
  "  ⚠️ [" ++ file ++ "]: SUCCESS, but failed to get target stats: " ++ emsg

/-- Log line `--- Finished: file ---`. -/
def finishedMsg (file : String) : String := "--- Finished: " ++ file ++ " ---"

/-- The externally-determined effects of one run: the directory listing,
a possible directory-creation/listing failure, the ffprobe outcome per
path, the ffmpeg conversion outcome per input path (`none` is success,
`some msg` the terminal error message), the wall-clock readings per file,
and the dated log-file path. -/
structure Env where
  files : List String
  dirError : Option String
  probe : String → Except String Metadata
  convert : String → Option String
  startISO : String → String
  endISO : String → String
  durationMs : String → Nat
  logFileName : String

/-- Outcome of one per-file job: which counter the source increments. -/
inductive JobOutcome where
  | success
  | failed
deriving DecidableEq

/-- Result of processing one candidate file: outcome, the `logInfo`
lines it emitted, and whether the ffmpeg engine was invoked. -/
structure JobResult where
  outcome : JobOutcome
  log : List String
  engineInvoked : Bool
deriving DecidableEq

/-- Totals accumulated by the per-file loop. -/
structure RunTotals where
  successCount : Nat
  failedCount : Nat
  log : List String
  engineCalls : List String
deriving DecidableEq

/-- The observable result of `convertVideos`: the counters, the `logInfo`
stream, the engine invocations, and whether the directory
creation/listing step ran. -/
structure RunResult where
  successCount : Nat
  failedCount : Nat
  log : List String
  engineCalls : List String
  dirsTouched : Bool
deriving DecidableEq

/-- The body of the `for` loop of `convertVideos` (convert.js lines
146-233) for one file: derive the paths and output name, probe the
source (on error log, fail, and skip without invoking the engine),
otherwise log source stats and timing, run the conversion, and on
success probe the target, logging target stats and the size change, a
target-probe failure downgrading only to a warning. -/
def processFile (env : Env) (preset : Preset) (i n : Nat) (file : String) :
    JobResult :=
  let inputPath := pathJoin inputDir file
  let outputName := outputNameOf file preset
  let outputPath := pathJoin outputDir outputName
  match getFileStats inputPath (env.probe inputPath) with
  | .error emsg =>
    { outcome := .failed
      log := [headerMsg i n file, probeErrMsg file emsg, skipMsg file]
      engineInvoked := false }
  | .ok sourceStats =>
    let baseLines :=
      [headerMsg i n file, "  Source Stats:", fileSizeLine sourceStats.size,
       videoLine sourceStats, audioLine sourceStats,
       "  Start Time: " ++ env.startISO file,
       "  End Time: " ++ env.endISO file,
       durationLine (env.durationMs file)]
    match env.convert inputPath with
    | some emsg =>
      { outcome := .failed
        log := baseLines ++ [convFailedMsg file emsg, finishedMsg file]
        engineInvoked := true }
    | none =>
      match getFileStats outputPath (env.probe outputPath) with
      | .ok targetStats =>
        { outcome := .success
          log := baseLines ++
            ["  Target Stats:", fileSizeLine targetStats.size,
             videoLine targetStats, audioLine targetStats,
             sizeChangeLine targetStats.size sourceStats.size,
             successMsg file outputName, finishedMsg file]
          engineInvoked := true }
      | .error emsg =>
        { outcome := .success
          log := baseLines ++ [warnMsg file emsg, finishedMsg file]
          engineInvoked := true }

/-- Folds one job's result into the totals of the remaining loop
iterations: the outcome tag decides which counter is incremented, the
job's log lines precede the later ones, and the file is recorded as an
engine invocation when the conversion step was reached. -/
def combineJob (file : String) (jr : JobResult) (tl : RunTotals) : RunTotals :=
  match jr.outcome with
  | .success =>
    { successCount := tl.successCount + 1
      failedCount := tl.failedCount
      log := jr.log ++ tl.log
      engineCalls := (if jr.engineInvoked then [file] else []) ++ tl.engineCalls }
  | .failed =>
    { successCount := tl.successCount
      failedCount := tl.failedCount + 1
      log := jr.log ++ tl.log
      engineCalls := (if jr.engineInvoked then [file] else []) ++ tl.engineCalls }

/-- The per-file loop of `convertVideos`: processes the candidate list in
order, accumulating the counters, the log, and the engine invocations. -/
def runJobs (env : Env) (preset : Preset) (n : Nat) : Nat → List String → RunTotals
  | _, [] => { successCount := 0, failedCount := 0, log := [], engineCalls := [] }
  | i, file :: rest =>
    combineJob file (processFile env preset i n file)
      (runJobs env preset n (i + 1) rest)

/-- The closing summary lines of a full run (convert.js lines 237-240). -/
def summaryMsgs (successCount failedCount : Nat) (logFileName : String) :
    List String :=
  ["\n--- 🏁 Conversion session finished ---",
   "Successful: " ++ toString successCount,
   "Failed / Skipped: " ++ toString failedCount,
   "All logs saved to: " ++ logFileName]

/-- `convertVideos` after the directories were created and listed: filter
the listing to video files; with zero candidates log the no-files warning
and return, otherwise run the per-file loop and log the summary. -/
def afterDirs (env : Env) (presetName : String) (preset : Preset) : RunResult :=
  let videoFiles := videoFilesOf env.files
  if videoFiles.length = 0 then
    { successCount := 0, failedCount := 0
      log := [startMsg presetName, noFilesMsg]
      engineCalls := [], dirsTouched := true }
  else
    let totals := runJobs env preset videoFiles.length 0 videoFiles
    { successCount := totals.successCount
      failedCount := totals.failedCount
      log := [startMsg presetName, foundMsg videoFiles.length] ++ totals.log ++
        summaryMsgs totals.successCount totals.failedCount env.logFileName
      engineCalls := totals.engineCalls
      dirsTouched := true }

/-- `convertVideos` after the preset was resolved: create and list the
directories (their externally-determined failure aborts the run), then
continue with `afterDirs`. -/
def afterPreset (env : Env) (presetName : String) (preset : Preset) : RunResult :=
  match env.dirError with
  | some emsg =>
    { successCount := 0, failedCount := 0
      log := [startMsg presetName, dirErrorMsg emsg]
      engineCalls := [], dirsTouched := true }
  | none => afterDirs env presetName preset

/-- Source `convertVideos` (convert.js lines 111-241): log the session
start, resolve the preset (an unknown name logs the error plus the
available presets and returns before any directory is touched), then
proceed with directories, candidate filtering, the per-file loop, and
the summary. -/
def convertVideos (env : Env) (presetName : String) : RunResult :=
  match lookupPreset presetName with
  | none =>
    { successCount := 0, failedCount := 0
      log := [startMsg presetName, presetNotFoundMsg presetName,
              availablePresetsMsg]
      engineCalls := [], dirsTouched := false }
  | some preset => afterPreset env presetName preset

/-! Concrete fixtures used by the theorems below. -/

/-- Metadata of a file whose container reports a byte size of zero. -/
def metaSizeZero : Metadata := { size := 0, duration := 0, streams := [] }

/-- Metadata of a file of 1000 bytes. -/
def metaSize1000 : Metadata := { size := 1000, duration := 0, streams := [] }

/-- Metadata with a video stream that carries no `bit_rate` field. -/
def metaStreamNoBitrate : Metadata :=
  { size := 100, duration := 1
    streams := [{ codec_type := "video", codec_name := "h264", bit_rate := none }] }

/-- Metadata with an audio stream that carries no `bit_rate` field. -/
def metaAudioNoBitrate : Metadata :=
  { size := 100, duration := 1
    streams := [{ codec_type := "audio", codec_name := "aac", bit_rate := none }] }

/-- Metadata with no streams at all. -/
def metaNoStreams : Metadata := { size := 100, duration := 1, streams := [] }

/-- An environment in which `a.mp4` probes as a zero-byte source, its
conversion succeeds, and the produced target probes as 1000 bytes. -/
def envSizeZero : Env :=
  { files := ["a.mp4"]
    dirError := none
    probe := fun p =>
      if p = pathJoin inputDir "a.mp4" then .ok metaSizeZero else .ok metaSize1000
    convert := fun _ => none
    startISO := fun _ => "2026-01-01T00:00:00.000Z"
    endISO := fun _ => "2026-01-01T00:00:01.000Z"
    durationMs := fun _ => 1000
    logFileName := "./process_2026_01_01.log" }

/-- An environment whose input directory holds no video file. -/
def envNoVideos : Env :=
  { files := ["notes.txt", "cover.jpg"]
    dirError := none
    probe := fun _ => .error "unreachable"
    convert := fun _ => some "unreachable"
    startISO := fun _ => "t0"
    endISO := fun _ => "t1"
    durationMs := fun _ => 0
    logFileName := "./process_2026_01_01.log" }

/-- An environment in which every ffprobe call fails. -/
def envProbeFail : Env :=
  { files := ["a.mp4", "b.txt"]
    dirError := none
    probe := fun _ => .error "boom"
    convert := fun _ => some "unreachable"
    startISO := fun _ => "t0"
    endISO := fun _ => "t1"
    durationMs := fun _ => 0
    logFileName := "./process_2026_01_01.log" }

/-- An environment in which the source probes fine and conversion
succeeds, but probing the produced target file fails. -/
def envTargetFail : Env :=
  { files := ["a.mp4"]
    dirError := none
    probe := fun p =>
      if p = pathJoin inputDir "a.mp4" then .ok metaSize1000
      else .error "bad target"
    convert := fun _ => none
    startISO := fun _ => "t0"
    endISO := fun _ => "t1"
    durationMs := fun _ => 0
    logFileName := "./process_2026_01_01.log" }

/-- The stats record `getFileStats` resolves for `metaSize1000`. -/
def srcStats1000 : FileStats :=
  { size := 1000, duration := 0, videoCodec := "N/A"
    videoBitrate := .str "N/A", audioCodec := "N/A"
    audioBitrate := .str "N/A" }

/-- C1: the size-change computation is NOT guarded against a zero-byte
source.  Under JavaScript semantics `(target - 0) / 0 * 100` is
`Infinity` (and `NaN` when the target is also empty), `toFixed(2)`
renders it as the word `Infinity`, and on a job whose conversion and
target probe both succeed the run logs `Size Change: Infinity% ...`
instead of any explicit unknown result. -/
theorem sizeChange_zero_source_not_guarded :
    sizeChange 1000 0 = JsNumber.posInf ∧
    sizeChange 0 0 = JsNumber.nan ∧
    sizeChangeLine 1000 0 =
      "    Size Change: Infinity% (from 0 Bytes to 1000 Bytes)" ∧
    sizeChangeLine 1000 0 ∈ (processFile envSizeZero web_h264 0 1 "a.mp4").log ∧
    (processFile envSizeZero web_h264 0 1 "a.mp4").outcome = JobOutcome.success := by
  decide

/-- C2 counterexample: `getFileStats` maps a video stream that exists but
has no bitrate in the container metadata and an altogether absent video
stream to the SAME value, the string `N/A`, so the claimed distinction
between the two situations does not exist. -/
theorem probe_collapses_missing_bitrate_and_missing_stream :
    (getFileStats "f1" (.ok metaStreamNoBitrate)).map FileStats.videoBitrate =
      .ok (.str "N/A") ∧
    (getFileStats "f2" (.ok metaNoStreams)).map FileStats.videoBitrate =
      .ok (.str "N/A") :=
  ⟨rfl, rfl⟩

/-- C2 amended: for every probed file, the `videoBitrate` (resp.
`audioBitrate`) field is the single label `N/A` both when the stream
exists without a bitrate in the container metadata and when that stream
type is absent altogether — the prober does not distinguish the two
situations. -/
theorem probe_na_for_missing_bitrate_and_stream
    (path1 path2 path3 path4 : String)
    (meta1 meta2 meta3 meta4 : Metadata) (sv sa : ProbeStream)
    (h1 : meta1.streams.find? (fun t => t.codec_type == "video") = some sv)
    (h2 : sv.bit_rate = none)
    (h3 : meta2.streams.find? (fun t => t.codec_type == "video") = none)
    (h4 : meta3.streams.find? (fun t => t.codec_type == "audio") = some sa)
    (h5 : sa.bit_rate = none)
    (h6 : meta4.streams.find? (fun t => t.codec_type == "audio") = none) :
    (getFileStats path1 (.ok meta1)).map FileStats.videoBitrate =
      .ok (.str "N/A") ∧
    (getFileStats path2 (.ok meta2)).map FileStats.videoBitrate =
      .ok (.str "N/A") ∧
    (getFileStats path3 (.ok meta3)).map FileStats.audioBitrate =
      .ok (.str "N/A") ∧
    (getFileStats path4 (.ok meta4)).map FileStats.audioBitrate =
      .ok (.str "N/A") := by
  simp [getFileStats, h1, h2, h3, h4, h5, h6, jsOrNA, Except.map]

/-- C2 witness: the amended statement applied at concrete metadata. -/
theorem probe_na_for_missing_bitrate_and_stream_witness :
    (getFileStats "f1" (.ok metaStreamNoBitrate)).map FileStats.videoBitrate =
      .ok (.str "N/A") ∧
    (getFileStats "f2" (.ok metaNoStreams)).map FileStats.videoBitrate =
      .ok (.str "N/A") ∧
    (getFileStats "f3" (.ok metaAudioNoBitrate)).map FileStats.audioBitrate =
      .ok (.str "N/A") ∧
    (getFileStats "f4" (.ok metaNoStreams)).map FileStats.audioBitrate =
      .ok (.str "N/A") :=
  probe_na_for_missing_bitrate_and_stream "f1" "f2" "f3" "f4"
    metaStreamNoBitrate metaNoStreams metaAudioNoBitrate metaNoStreams
    { codec_type := "video", codec_name := "h264", bit_rate := none }
    { codec_type := "audio", codec_name := "aac", bit_rate := none }
    (by decide) rfl (by decide) (by decide) rfl (by decide)

/-- C9 counterexample: `formatBytes 1536` does not return the literal
two-decimal string `1.50 KB`; the `parseFloat` step strips the trailing
zero, so the returned string is `1.5 KB`. -/
theorem formatBytes_1536_strips_trailing_zero :
    formatBytes 1536 ≠ "1.50 KB" ∧ formatBytes 1536 = "1.5 KB" := by
  decide

/-- C9 amended: `formatBytes 0` returns the zero-bytes label `0 Bytes`;
`formatBytes 1536` returns `1.5 KB`: 1536/1024 rounded to two decimal
places is 1.50 (150 hundredths, `toFixed(2)` printing `1.50`), and the
`parseFloat` normalisation strips the trailing zero before the unit
`KB` is appended. -/
theorem formatBytes_values :
    formatBytes 0 = "0 Bytes" ∧
    formatBytes 1536 = "1.5 KB" ∧
    (200 * 1536 + 1024 ^ log1024 1536) / (2 * 1024 ^ log1024 1536) = 150 ∧
    renderFixed2Nat 150 = "1.50" ∧
    renderCentiTrimmed 150 = "1.5" ∧
    sizes.getD (log1024 1536) "undefined" = "KB" := by
  decide

/-- C10: `formatBitrate` renders a numerically zero bitrate with the
unknown-bitrate label `N/A`, identically to an absent (`undefined`) or
non-numeric bitrate, so callers cannot distinguish a measured 0 b/s from
an unknown bitrate; a genuine bitrate such as 128000 still renders as
`128 kb/s`. -/
theorem formatBitrate_zero_is_na :
    formatBitrate (.num 0) = "N/A" ∧
    formatBitrate .undef = "N/A" ∧
    formatBitrate (.str "N/A") = "N/A" ∧
    formatBitrate (.num 0) = formatBitrate .undef ∧
    formatBitrate (.num 128000) = "128 kb/s" := by
  decide

/-! Helper lemmas shared by the run-level theorems. -/

/-- Each processed candidate moves exactly one of the two counters. -/
theorem combineJob_counts (file : String) (jr : JobResult) (tl : RunTotals) :
    (combineJob file jr tl).successCount + (combineJob file jr tl).failedCount =
      tl.successCount + tl.failedCount + 1 := by
  cases h : jr.outcome <;> simp [combineJob, h] <;> omega

/-- The per-file loop accounts for every candidate: the counters always
sum to the number of files handed to it, whatever the individual
outcomes are. -/
theorem runJobs_total (env : Env) (preset : Preset) (n : Nat) :
    ∀ (fs : List String) (i : Nat),
      (runJobs env preset n i fs).successCount +
        (runJobs env preset n i fs).failedCount = fs.length := by
  intro fs
  induction fs with
  | nil => intro i; rfl
  | cons file rest ih =>
    intro i
    simp only [runJobs]
    rw [combineJob_counts, ih (i + 1), List.length_cons]

/-- A successful registry lookup means the looked-up name is one of the
registry keys. -/
theorem lookup_mem_keys :
    ∀ (l : List (String × Preset)) (k : String) (p : Preset),
      List.lookup k l = some p → k ∈ l.map Prod.fst := by
  intro l
  induction l with
  | nil => intro k p h; simp [List.lookup] at h
  | cons hd tl ih =>
    intro k p h
    obtain ⟨a, b⟩ := hd
    simp only [List.lookup] at h
    split at h
    · rename_i hbeq
      simp only [List.map_cons, List.mem_cons]
      exact Or.inl (eq_of_beq hbeq)
    · simp only [List.map_cons, List.mem_cons]
      exact Or.inr (ih k p h)

/-- Reduction of `convertVideos` on a run whose candidate list is
empty. -/
theorem convertVideos_no_candidates (env : Env) (presetName : String)
    (preset : Preset) (hp : lookupPreset presetName = some preset)
    (hd : env.dirError = none) (hv : videoFilesOf env.files = []) :
    convertVideos env presetName =
      { successCount := 0, failedCount := 0
        log := [startMsg presetName, noFilesMsg]
        engineCalls := [], dirsTouched := true } := by
  simp [convertVideos, hp, afterPreset, hd, afterDirs, hv]

/-- In a character list of the form `base ++ '.' :: r` with a dot-free
tail `r`, the last dot sits exactly at position `base.length`. -/
theorem lastDotPos_none_of_not_mem :
    ∀ (l : List Char), '.' ∉ l → lastDotPos l = none := by
  intro l
  induction l with
  | nil => intro _; rfl
  | cons c cs ih =>
    intro h
    simp only [List.mem_cons, not_or] at h
    obtain ⟨h1, h2⟩ := h
    simp only [lastDotPos, ih h2]
    exact if_neg fun hc => h1 hc.symm

/-- The last dot of `base ++ '.' :: r` with `r` dot-free is the explicit
one, at index `base.length`. -/
theorem lastDotPos_append (r : List Char) (hr : '.' ∉ r) :
    ∀ base : List Char, lastDotPos (base ++ '.' :: r) = some base.length := by
  intro base
  induction base with
  | nil => simp [lastDotPos, lastDotPos_none_of_not_mem r hr]
  | cons c cs ih =>
    simp only [List.cons_append, lastDotPos, List.append_eq]
    rw [ih]
    simp [List.length_cons]

/-- Node `path.parse` recovers the stem: for a nonempty `base` and a
dot-free `r`, the name part of `base ++ "." ++ r` is `base`. -/
theorem stem_append_ext (base r : String) (hb : base ≠ "")
    (hr : '.' ∉ r.data) : stem (base ++ "." ++ r) = base := by
  have hdata : (base ++ "." ++ r).toList = base.data ++ '.' :: r.data := by
    show (base ++ "." ++ r).data = _
    rw [String.data_append, String.data_append, List.append_assoc]
    rfl
  have hdot := lastDotPos_append r.data hr base.data
  have hne : base.data ≠ [] := fun hd => hb (String.ext hd)
  obtain ⟨c, cs, hcons⟩ := List.exists_cons_of_ne_nil hne
  rw [stem, hdata, hdot, hcons]
  simp only [List.length_cons]
  show String.mk (List.take (cs.length + 1) ((c :: cs) ++ '.' :: r.data)) = base
  have : (c :: cs).length = cs.length + 1 := rfl
  rw [← this, List.take_left, ← hcons]

/-- C3: for every run in which the input directory contains zero
candidate video files, the run result reports zero successes and zero
failures and the no-files message appears in the log exactly once. -/
theorem no_candidates_summary (env : Env) (presetName : String)
    (preset : Preset) (hp : lookupPreset presetName = some preset)
    (hd : env.dirError = none) (hv : videoFilesOf env.files = []) :
    (convertVideos env presetName).successCount = 0 ∧
    (convertVideos env presetName).failedCount = 0 ∧
    (convertVideos env presetName).log.count noFilesMsg = 1 := by
  rw [convertVideos_no_candidates env presetName preset hp hd hv]
  refine ⟨rfl, rfl, ?_⟩
  have hmem := lookup_mem_keys PRESETS presetName preset hp
  have hnames : presetName = "conv0_5" ∨ presetName = "conv0_25s" ∨
      presetName = "conv256s" ∨ presetName = "web_h264" ∨
      presetName = "extract_audio" := by
    simpa [PRESETS] using hmem
  rcases hnames with rfl | rfl | rfl | rfl | rfl <;> decide

/-- C3 witness: the statement applied to a directory listing that holds
no video file. -/
theorem no_candidates_summary_witness :
    (convertVideos envNoVideos "web_h264").successCount = 0 ∧
    (convertVideos envNoVideos "web_h264").failedCount = 0 ∧
    (convertVideos envNoVideos "web_h264").log.count noFilesMsg = 1 :=
  no_candidates_summary envNoVideos "web_h264" web_h264 (by decide) rfl
    (by decide)

/-- C4 counterexample: on a run with an unknown preset the log is not
limited to the error output — the session-start line is logged before
the preset check and differs from both error lines, so a log entry
beyond the error is produced. -/
theorem unknown_preset_logs_session_start :
    startMsg "nope" ∈ (convertVideos envSizeZero "nope").log ∧
    startMsg "nope" ≠ presetNotFoundMsg "nope" ∧
    startMsg "nope" ≠ availablePresetsMsg := by
  decide

/-- C4 amended: for every run invoked with a preset name absent from the
registry, no directories are created or listed, no per-file job runs (no
engine call, zero counted jobs), and the log consists exactly of the
session-start line, the preset-not-found error, and the line naming all
available preset names. -/
theorem unknown_preset_no_side_effects (env : Env) (presetName : String)
    (h : lookupPreset presetName = none) :
    (convertVideos env presetName).dirsTouched = false ∧
    (convertVideos env presetName).engineCalls = [] ∧
    (convertVideos env presetName).successCount = 0 ∧
    (convertVideos env presetName).failedCount = 0 ∧
    (convertVideos env presetName).log =
      [startMsg presetName, presetNotFoundMsg presetName,
       availablePresetsMsg] := by
  simp [convertVideos, h]

/-- C4 witness: the amended statement applied to the unknown preset name
`nope`. -/
theorem unknown_preset_no_side_effects_witness :
    (convertVideos envNoVideos "nope").dirsTouched = false ∧
    (convertVideos envNoVideos "nope").engineCalls = [] ∧
    (convertVideos envNoVideos "nope").successCount = 0 ∧
    (convertVideos envNoVideos "nope").failedCount = 0 ∧
    (convertVideos envNoVideos "nope").log =
      [startMsg "nope", presetNotFoundMsg "nope", availablePresetsMsg] :=
  unknown_preset_no_side_effects envNoVideos "nope" (by decide)

/-- C5: for every run that reaches per-file processing (a known preset,
directories in order, a nonempty candidate list), the final counters
partition the candidates: successCount + failedCount equals the number
of files whose lowercased extension is in the video-extension set,
regardless of which probes or conversions fail. -/
theorem summary_counts_partition_candidates (env : Env) (presetName : String)
    (preset : Preset) (hp : lookupPreset presetName = some preset)
    (hd : env.dirError = none) (hv : videoFilesOf env.files ≠ []) :
    (convertVideos env presetName).successCount +
      (convertVideos env presetName).failedCount =
      (videoFilesOf env.files).length := by
  have hlen : ¬ (videoFilesOf env.files).length = 0 := by
    simpa [List.length_eq_zero] using hv
  simp only [convertVideos, hp, afterPreset, hd, afterDirs, if_neg hlen]
  exact runJobs_total env preset _ _ 0

/-- C5 witness: a run over `a.mp4` (probe fails) and `b.txt` (not a
candidate) ends with counters summing to the one candidate. -/
theorem summary_counts_partition_candidates_witness :
    (convertVideos envProbeFail "web_h264").successCount +
      (convertVideos envProbeFail "web_h264").failedCount =
      (videoFilesOf envProbeFail.files).length :=
  summary_counts_partition_candidates envProbeFail "web_h264" web_h264
    (by decide) rfl (by decide)

/-- C6: a job whose engine conversion succeeds but whose target-file
probe fails is still counted as a success — the loop increments the
success counter and leaves the failure counter unchanged — and the
qualified target-stats warning is logged for it. -/
theorem target_probe_failure_still_success (env : Env) (preset : Preset)
    (i n : Nat) (file : String) (rest : List String)
    (src : FileStats) (emsg : String)
    (hsrc : getFileStats (pathJoin inputDir file)
      (env.probe (pathJoin inputDir file)) = .ok src)
    (hconv : env.convert (pathJoin inputDir file) = none)
    (htgt : getFileStats (pathJoin outputDir (outputNameOf file preset))
      (env.probe (pathJoin outputDir (outputNameOf file preset))) =
      .error emsg) :
    (processFile env preset i n file).outcome = JobOutcome.success ∧
    warnMsg file emsg ∈ (processFile env preset i n file).log ∧
    (runJobs env preset n i (file :: rest)).successCount =
      (runJobs env preset n (i + 1) rest).successCount + 1 ∧
    (runJobs env preset n i (file :: rest)).failedCount =
      (runJobs env preset n (i + 1) rest).failedCount := by
  have hpf : (processFile env preset i n file).outcome = JobOutcome.success ∧
      warnMsg file emsg ∈ (processFile env preset i n file).log := by
    simp only [processFile, hsrc, hconv, htgt]
    simp
  refine ⟨hpf.1, hpf.2, ?_, ?_⟩ <;>
    simp only [runJobs, combineJob, hpf.1]

/-- C6 witness: the statement applied to a run whose only job converts
fine but whose freshly produced output cannot be probed. -/
theorem target_probe_failure_still_success_witness :
    (processFile envTargetFail web_h264 0 1 "a.mp4").outcome =
      JobOutcome.success ∧
    warnMsg "a.mp4" "ffprobe error for ./output/a.mp4: bad target" ∈
      (processFile envTargetFail web_h264 0 1 "a.mp4").log ∧
    (runJobs envTargetFail web_h264 1 0 ["a.mp4"]).successCount =
      (runJobs envTargetFail web_h264 1 1 []).successCount + 1 ∧
    (runJobs envTargetFail web_h264 1 0 ["a.mp4"]).failedCount =
      (runJobs envTargetFail web_h264 1 1 []).failedCount :=
  target_probe_failure_still_success envTargetFail web_h264 0 1 "a.mp4" []
    srcStats1000 "ffprobe error for ./output/a.mp4: bad target" rfl rfl rfl

/-- C7: a candidate whose source-stats probe fails is marked failed
without the engine ever being invoked for it, and — whatever the
outcomes — every candidate in the rest of the list is still processed
and counted, so no per-file failure aborts the run. -/
theorem source_probe_failure_skips_engine (env : Env) (preset : Preset)
    (i n : Nat) (file : String) (rest : List String) (emsg : String)
    (hprobe : getFileStats (pathJoin inputDir file)
      (env.probe (pathJoin inputDir file)) = .error emsg) :
    (processFile env preset i n file).outcome = JobOutcome.failed ∧
    (processFile env preset i n file).engineInvoked = false ∧
    (runJobs env preset n i (file :: rest)).failedCount =
      (runJobs env preset n (i + 1) rest).failedCount + 1 ∧
    (runJobs env preset n i (file :: rest)).successCount =
      (runJobs env preset n (i + 1) rest).successCount ∧
    (runJobs env preset n i (file :: rest)).successCount +
      (runJobs env preset n i (file :: rest)).failedCount =
      (file :: rest).length := by
  have hpf : (processFile env preset i n file).outcome = JobOutcome.failed ∧
      (processFile env preset i n file).engineInvoked = false := by
    simp [processFile, hprobe]
  refine ⟨hpf.1, hpf.2, ?_, ?_, runJobs_total env preset n (file :: rest) i⟩ <;>
    simp only [runJobs, combineJob, hpf.1]

/-- C7 witness: the statement applied to a run whose first candidate
cannot be probed. -/
theorem source_probe_failure_skips_engine_witness :
    (processFile envProbeFail web_h264 0 1 "a.mp4").outcome =
      JobOutcome.failed ∧
    (processFile envProbeFail web_h264 0 1 "a.mp4").engineInvoked = false ∧
    (runJobs envProbeFail web_h264 1 0 ["a.mp4"]).failedCount =
      (runJobs envProbeFail web_h264 1 1 []).failedCount + 1 ∧
    (runJobs envProbeFail web_h264 1 0 ["a.mp4"]).successCount =
      (runJobs envProbeFail web_h264 1 1 []).successCount ∧
    (runJobs envProbeFail web_h264 1 0 ["a.mp4"]).successCount +
      (runJobs envProbeFail web_h264 1 0 ["a.mp4"]).failedCount =
      (["a.mp4"] : List String).length :=
  source_probe_failure_skips_engine envProbeFail web_h264 0 1 "a.mp4" []
    "ffprobe error for ./input/a.mp4: boom" rfl

/-- C8: the output file name is the input file's stem concatenated with
the active preset's output extension, for every file and preset; in
particular, for a fixed stem the name is independent of the input's
original extension. -/
theorem output_name_from_stem_and_preset (preset : Preset)
    (f base r1 r2 : String) (hb : base ≠ "")
    (h1 : '.' ∉ r1.data) (h2 : '.' ∉ r2.data) :
    outputNameOf f preset = stem f ++ preset.outputExtension ∧
    stem (base ++ "." ++ r1) = base ∧
    outputNameOf (base ++ "." ++ r1) preset = base ++ preset.outputExtension ∧
    outputNameOf (base ++ "." ++ r1) preset =
      outputNameOf (base ++ "." ++ r2) preset := by
  have hs1 := stem_append_ext base r1 hb h1
  have hs2 := stem_append_ext base r2 hb h2
  refine ⟨rfl, hs1, ?_, ?_⟩ <;> simp [outputNameOf, hs1, hs2]

/-- C8 witness: the statement at `clip.mp4` versus `clip.avi` under the
audio-extraction preset, both mapping to `clip.mp3`. -/
theorem output_name_from_stem_and_preset_witness :
    outputNameOf "x.y" extract_audio = stem "x.y" ++ ".mp3" ∧
    stem ("clip" ++ "." ++ "mp4") = "clip" ∧
    outputNameOf ("clip" ++ "." ++ "mp4") extract_audio = "clip" ++ ".mp3" ∧
    outputNameOf ("clip" ++ "." ++ "mp4") extract_audio =
      outputNameOf ("clip" ++ "." ++ "avi") extract_audio :=
  output_name_from_stem_and_preset extract_audio "x.y" "clip" "mp4" "avi"
    (by decide) (by decide) (by decide)

end VConv
